import Mathlib

/-!
Shallow embedding of `src/Max_Arduino Color Detector/src/arduinoSketch.ino`.

The firmware has two halves:
* a polled Color Renderer: `loop()` reads one byte from the serial input when
  available and calls `lightLED`, which dispatches to `setLEDSequence`, which
  loads a 4-bit active-low pattern into register r16 and writes the whole
  8-bit PORTB register with `out PORTB, r16`;
* an interrupt-driven Edge Notifier: `ISR(INT0_vect)` runs on any logical
  change of INT0 and puts the byte 0x43 on the serial transmit register UDR0.

Machine bytes are modelled as `Nat` with `% 256` where register width
matters; port and serial effects are modelled as explicit traces on a state
record, so that ordering and "exactly one write" statements are expressible.
-/

namespace ArduinoColorDetector

/-- The four 4-bit active-low patterns the sketch can load into r16:
`0x0d` (red), `0x0b` (green), `0x07` (blue), `0x0e` (no color). -/
def definedPatterns : List Nat := [0x0d, 0x0b, 0x07, 0x0e]

/-- Byte loaded into r16 by `setLEDSequence(int ledPin)` and then written to
PORTB: `case 1` loads 0x0d, `case 2` loads 0x0b, `case 3` loads 0x07, and
`case 0` together with `default` load 0x0e.  The argument is a C `int`. -/
def setLEDSequence (ledPin : Int) : Nat :=
  if ledPin = 1 then 0x0d
  else if ledPin = 2 then 0x0b
  else if ledPin = 3 then 0x07
  else 0x0e

/-- Byte that `lightLED(char code)` causes to be written to PORTB: the
`switch` dispatches `case 'r'` (114) to `setLEDSequence(1)`, `case 'g'`
(103) to `setLEDSequence(2)`, `case 'b'` (98) to `setLEDSequence(3)` and
`default` to `setLEDSequence(0)`. -/
def lightLED (code : Nat) : Nat :=
  if code = 114 then setLEDSequence 1
  else if code = 103 then setLEDSequence 2
  else if code = 98 then setLEDSequence 3
  else setLEDSequence 0

/-- The input-byte-to-pattern table exactly as the spec states it (§4.2):
'r' maps to 1101, 'g' to 1011, 'b' to 0111, any other byte to 1110.
Written from the spec table, to be compared against `lightLED`. -/
def specColorPattern (b : Nat) : Nat :=
  if b = 114 then 0x0d
  else if b = 103 then 0x0b
  else if b = 98 then 0x07
  else 0x0e

/-- Foreground (renderer-side) machine state: the global `_receivedByte`,
the 8-bit PORTB output register, plus observation traces: every value
written to PORTB (in order) and every byte the foreground path puts on the
serial transmit line (the foreground never transmits, so the latter stays
untouched by it). -/
structure RenderState where
  receivedByte : Nat
  portB : Nat
  portWrites : List Nat
  txBytes : List Nat
deriving Repr, DecidableEq

/-- Effect of `out PORTB, r16`: the whole 8-bit register is replaced by the
written byte (no read-modify-write), and the write is recorded. -/
def writePortB (s : RenderState) (v : Nat) : RenderState :=
  { s with portB := v % 256, portWrites := s.portWrites ++ [v % 256] }

/-- State effect of one call `setLEDSequence(ledPin)`: load the pattern into
r16 and write it to PORTB. -/
def setLEDSequenceRun (s : RenderState) (ledPin : Int) : RenderState :=
  writePortB s (setLEDSequence ledPin)

/-- State effect of one call `lightLED(code)`: the `switch` on the received
byte, each branch calling `setLEDSequence`. -/
def lightLEDRun (s : RenderState) (code : Nat) : RenderState :=
  if code = 114 then setLEDSequenceRun s 1
  else if code = 103 then setLEDSequenceRun s 2
  else if code = 98 then setLEDSequenceRun s 3
  else setLEDSequenceRun s 0

/-- One iteration of `loop()`: when `Serial.available() > 0` (modelled as
`some b` with `b` the byte `Serial.read()` returns), store the byte in the
global `_receivedByte` and call `lightLED(_receivedByte)`; otherwise do
nothing. -/
def loopIter (s : RenderState) (avail : Option Nat) : RenderState :=
  match avail with
  | none => s
  | some b => lightLEDRun { s with receivedByte := b } b

/-- Run of the foreground loop over a finite sequence of received bytes
(iterations where no byte is available leave the state unchanged and are
elided). -/
def runLoop (s : RenderState) : List Nat → RenderState
  | [] => s
  | b :: rest => runLoop (loopIter s (some b)) rest

/-- `ledTest()`: cycles `setLEDSequence` through 1, 2, 3, 0 (the one-second
delays are timing only and carry no state). -/
def ledTest (s : RenderState) : RenderState :=
  setLEDSequenceRun (setLEDSequenceRun (setLEDSequenceRun (setLEDSequenceRun s 1) 2) 3) 0

/-- Hardware configuration established by `setup()`. -/
structure HwConfig where
  ddrb : Nat
  eicra : Nat
  eimsk : Nat
  globalIrqEnabled : Bool
  baud : Nat
deriving Repr, DecidableEq

/-- Reset state at power-on: AVR I/O registers reset to 0, `_receivedByte`
is initialised to 0, nothing written yet. -/
def powerOnRender : RenderState :=
  { receivedByte := 0, portB := 0, portWrites := [], txBytes := [] }

/-- `setup()`: sets DDRB to 0x0f (PB0..PB3 output), clears DDD2 (INT0 as
input), sets EICRA |= 1 (any logical change on INT0), EIMSK |= 1, executes
`sei`, runs `ledTest()`, then `Serial.begin(9600)`. -/
def setup (s : RenderState) : HwConfig × RenderState :=
  ({ ddrb := 0x0f, eicra := 0 ||| 1, eimsk := 0 ||| 1,
     globalIrqEnabled := true, baud := 9600 },
   ledTest s)

/-- Renderer state right after `setup()` returns. -/
def setupState : RenderState := (setup powerOnRender).2

/-- A write to PORTB has exactly one of bits 0..3 low (active-low: exactly
one LED lit). -/
def exactlyOneLow (v : Nat) : Prop :=
  (List.filter (fun i => ! Nat.testBit v i) [0, 1, 2, 3]).length = 1

/-!
Edge Notifier: `ISR(INT0_vect)`.

The handler body is, in order (inline asm followed by one C statement):
```
cli
push %0                  ; %0 is a scratch register GCC preloaded with SREG
USART_Transmit:
  st X, %1               ; %1 holds _SFR_IO_ADDR(UCSR0A) = 0xA0
  ld r16, X
  sbrs r16, UDRE0        ; UDRE0 = bit 5
  rjmp USART_Transmit
ldi r17, 0x43
pop %0
sei
UDR0 = val;              ; C statement, val is r17
```
Note the spin body uses `st`/`ld` through the (uninitialised) X pointer into
data memory: it stores the constant operand 0xA0 and reloads it; it contains
no instruction that reads the USART status register UCSR0A.  The model keeps
UCSR0A as a separate hardware register (`ucsr0a`), data memory as a plain
`Nat → Nat` map (X taken to point into ordinary RAM), and records the
observable hardware interactions relevant to the spec as an event trace.
-/

/-- Observable hardware interactions of the interrupt handler: clearing and
setting the global interrupt flag, a read of the USART status register
UCSR0A, and a byte written to the transmit data register UDR0 (i.e. placed
on the serial line). -/
inductive IsrEvent where
  | cliEv : IsrEvent
  | seiEv : IsrEvent
  | readUCSR0A : Nat → IsrEvent
  | writeUDR0 : Nat → IsrEvent
deriving Repr, DecidableEq

/-- Recognise a transmit event. -/
def IsrEvent.isWrite : IsrEvent → Bool
  | IsrEvent.writeUDR0 _ => true
  | _ => false

/-- Recognise a read of UCSR0A. -/
def IsrEvent.isReadUCSR0A : IsrEvent → Bool
  | IsrEvent.readUCSR0A _ => true
  | _ => false

/-- Machine state seen by the interrupt handler: the registers it touches
(r16, r17, the X pointer left uninitialised by the handler), data memory,
the stack, the SREG value GCC preloaded into its scratch register, the
global interrupt flag, the USART status register UCSR0A (a hardware input
the handler never changes), and the event trace. -/
structure IsrState where
  r16 : Nat
  r17 : Nat
  x : Nat
  mem : Nat → Nat
  stack : List Nat
  sreg : Nat
  iflag : Bool
  ucsr0a : Nat
  events : List IsrEvent

/-- `_SFR_IO_ADDR(UCSR0A)`: UCSR0A sits at data address 0xC0 on the target
part and `_SFR_IO_ADDR` subtracts the 0x20 I/O offset, so the asm operand
%1 is a register holding 0xA0. -/
def sfrIoAddrUCSR0A : Nat := 0xA0

/-- One pass of the `USART_Transmit` spin body: `st X, %1` stores 0xA0 at
the address in X, `ld r16, X` loads that byte back into r16. -/
def spinIter (s : IsrState) : IsrState :=
  let mem2 : Nat → Nat := fun a => if a = s.x then sfrIoAddrUCSR0A else s.mem a
  { s with mem := mem2, r16 := mem2 s.x }

/-- The `USART_Transmit` loop: run the body, then `sbrs r16, 5` skips the
`rjmp` (exits the loop) exactly when bit 5 of r16 is set.  Fuel bounds the
number of iterations; `none` means the fuel ran out. -/
def spin : Nat → IsrState → Option IsrState
  | 0, _ => none
  | fuel + 1, s =>
    let s2 := spinIter s
    if Nat.testBit s2.r16 5 then some s2 else spin fuel s2

/-- The whole handler: `cli`; `push %0`; the spin; `ldi r17, 0x43`;
`pop %0`; `sei`; then the C statement `UDR0 = val` (val lives in r17). -/
def isrRun (fuel : Nat) (s : IsrState) : Option IsrState :=
  let s1 := { s with iflag := false, events := s.events ++ [IsrEvent.cliEv] }
  let s2 := { s1 with stack := s1.sreg :: s1.stack }
  (spin fuel s2).map fun s3 =>
    let s4 := { s3 with r17 := 0x43 }
    let s5 := { s4 with stack := s4.stack.tail }
    let s6 := { s5 with iflag := true, events := s5.events ++ [IsrEvent.seiEv] }
    { s6 with events := s6.events ++ [IsrEvent.writeUDR0 s6.r17] }

/-- Handler entry state with an empty event trace, all inputs arbitrary. -/
def mkIsrState (r16 r17 x : Nat) (mem : Nat → Nat) (stack : List Nat)
    (sreg : Nat) (iflag : Bool) (ucsr0a : Nat) : IsrState :=
  { r16 := r16, r17 := r17, x := x, mem := mem, stack := stack,
    sreg := sreg, iflag := iflag, ucsr0a := ucsr0a, events := [] }

/-! Helper lemmas. -/

/-- `exactlyOneLow` is checkable by evaluation. -/
instance (v : Nat) : Decidable (exactlyOneLow v) := by
  unfold exactlyOneLow
  infer_instance

/-- The code mapping agrees with the spec table on every byte. -/
theorem lightLED_eq_spec (b : Nat) : lightLED b = specColorPattern b := by
  unfold lightLED specColorPattern
  split_ifs <;> rfl

/-- Every value `lightLED` produces is one of the four patterns. -/
theorem lightLED_mem (b : Nat) : lightLED b ∈ definedPatterns := by
  rw [lightLED_eq_spec]
  unfold specColorPattern definedPatterns
  split_ifs <;> simp

/-- `lightLED` always produces a byte-sized value. -/
theorem lightLED_mod (b : Nat) : lightLED b % 256 = lightLED b := by
  rw [lightLED_eq_spec]
  unfold specColorPattern
  split_ifs <;> rfl

/-- The state effect of `lightLED` is one whole-port write of the pure
mapping value. -/
theorem lightLEDRun_eq (s : RenderState) (b : Nat) :
    lightLEDRun s b = writePortB s (lightLED b) := by
  unfold lightLEDRun setLEDSequenceRun lightLED
  split_ifs <;> rfl

/-- The loop's write trace: one PORTB write per received byte, in order,
each the mapping of that byte. -/
theorem runLoop_portWrites (l : List Nat) (s : RenderState) :
    (runLoop s l).portWrites = s.portWrites ++ l.map lightLED := by
  induction l generalizing s with
  | nil => simp [runLoop]
  | cons b rest ih =>
    rw [runLoop, ih]
    simp [loopIter, lightLEDRun_eq, writePortB, lightLED_mod]

/-- The loop never transmits on the serial line. -/
theorem runLoop_txBytes (l : List Nat) (s : RenderState) :
    (runLoop s l).txBytes = s.txBytes := by
  induction l generalizing s with
  | nil => rfl
  | cons b rest ih =>
    rw [runLoop, ih]
    simp [loopIter, lightLEDRun_eq, writePortB]

/-- The port value after a run is a defined pattern whenever it was one
before (each write installs `lightLED b`, itself a defined pattern). -/
theorem runLoop_portB_mem (l : List Nat) (s : RenderState)
    (h : s.portB ∈ definedPatterns) :
    (runLoop s l).portB ∈ definedPatterns := by
  induction l generalizing s with
  | nil => exact h
  | cons b rest ih =>
    rw [runLoop]
    apply ih
    simp [loopIter, lightLEDRun_eq, writePortB, lightLED_mod]
    exact lightLED_mem b

/-- Each of the four patterns has exactly one of bits 0..3 low. -/
theorem definedPatterns_exactlyOneLow (v : Nat) (h : v ∈ definedPatterns) :
    exactlyOneLow v := by
  simp [definedPatterns] at h
  rcases h with h | h | h | h <;> subst h <;> decide

/-- The first pass of the spin loads the constant 0xA0 into r16 (stored at
X and reloaded), so `sbrs r16, 5` always exits the loop immediately:
bit 5 of 0xA0 is set, whatever UCSR0A holds. -/
theorem spin_succ (fuel : Nat) (s : IsrState) :
    spin (fuel + 1) s = some (spinIter s) := by
  have hr : (spinIter s).r16 = 160 := by simp [spinIter, sfrIoAddrUCSR0A]
  have hb : Nat.testBit 160 5 = true := by decide
  rw [spin]
  simp [hr, hb]

/-- The handler terminates with any positive fuel and its whole observable
trace is: interrupts masked, interrupts re-enabled, one byte 0x43 placed on
the line — in that order; it never reads UCSR0A and never changes it. -/
theorem isrRun_trace (fuel : Nat) (s : IsrState) :
    ∃ sf, isrRun (fuel + 1) s = some sf ∧
      sf.events = s.events ++ [IsrEvent.cliEv, IsrEvent.seiEv, IsrEvent.writeUDR0 0x43] ∧
      sf.iflag = true ∧ sf.ucsr0a = s.ucsr0a := by
  simp only [isrRun, spin_succ, Option.map_some]
  exact ⟨_, rfl, by simp [spinIter], rfl, rfl⟩

/-! Claim theorems. -/

/-- Claim C1: processing any byte b through the Color Renderer performs
exactly one write to the output port; the written value follows the spec
table — 0x0d for 'r' (114), 0x0b for 'g' (103), 0x07 for 'b' (98), 0x0e for
every other byte — so it is always one of the four defined patterns, and
the mapping is case-sensitive: 'R' (82) maps to the NONE pattern 0x0e. -/
theorem C1_color_mapping (b : Nat) (s : RenderState) :
    (loopIter s (some b)).portWrites = s.portWrites ++ [lightLED b] ∧
    lightLED b = specColorPattern b ∧
    lightLED b ∈ definedPatterns ∧
    lightLED 82 = 0x0e := by
  refine ⟨?_, lightLED_eq_spec b, lightLED_mem b, by decide⟩
  simp [loopIter, lightLEDRun_eq, writePortB, lightLED_mod]

/-- Claim C2: one run of the interrupt handler, from any entry state,
terminates and its trace contains exactly one serial transmit event, whose
byte is exactly 0x43 ('C'); no other byte value is ever put on the line by
the notifier path. -/
theorem C2_isr_transmits_exactly_C (fuel r16 r17 x sreg ucsr0a : Nat)
    (mem : Nat → Nat) (stack : List Nat) (iflag : Bool) :
    ∃ sf, isrRun (fuel + 1) (mkIsrState r16 r17 x mem stack sreg iflag ucsr0a) = some sf ∧
      sf.events.filter (fun e => e.isWrite) = [IsrEvent.writeUDR0 0x43] := by
  obtain ⟨sf, h1, h2, _, _⟩ := isrRun_trace fuel (mkIsrState r16 r17 x mem stack sreg iflag ucsr0a)
  refine ⟨sf, h1, ?_⟩
  rw [h2]
  rfl

/-- Claim C3: starting from the state `setup()` leaves, after any sequence
of received bytes the output port holds one of the four defined patterns,
and every value ever written to the port is one of the four patterns and
has exactly one of bits 0..3 low. -/
theorem C3_port_invariant (inputs : List Nat) :
    (runLoop setupState inputs).portB ∈ definedPatterns ∧
    ∀ w ∈ (runLoop setupState inputs).portWrites,
      w ∈ definedPatterns ∧ exactlyOneLow w := by
  constructor
  · exact runLoop_portB_mem inputs setupState (by decide)
  · intro w hw
    rw [runLoop_portWrites] at hw
    have hmem : w ∈ definedPatterns := by
      rcases List.mem_append.mp hw with h | h
      · have hs : setupState.portWrites = definedPatterns := by decide
        rw [hs] at h
        exact h
      · rcases List.mem_map.mp h with ⟨b, _, hb⟩
        rw [← hb]
        exact lightLED_mem b
    exact ⟨hmem, definedPatterns_exactlyOneLow w hmem⟩

/-- Witness for C3 at the concrete run on input ['r']. -/
theorem C3_port_invariant_witness :
    (runLoop setupState [114]).portB ∈ definedPatterns ∧
    (13 ∈ definedPatterns ∧ exactlyOneLow 13) :=
  ⟨(C3_port_invariant [114]).1, (C3_port_invariant [114]).2 13 (by decide)⟩

/-- Concrete handler entry state (arbitrary register contents, SREG = 0x82,
transmit hardware idle) used to exhibit the event ordering. -/
def cexIsrStart : IsrState := mkIsrState 0 0 0 (fun _ => 0) [] 0x82 true 0

/-- Claim C4 is false as stated: at a concrete entry state the handler's
observable trace is [cli, sei, write 0x43] — the sei (interrupt re-enable)
strictly precedes the 0x43 write, refuting "the re-enable of interrupts
happens after the 0x43 write, not before it". -/
theorem C4_counterexample :
    ∃ sf, isrRun 1 cexIsrStart = some sf ∧
      sf.events = [IsrEvent.cliEv, IsrEvent.seiEv, IsrEvent.writeUDR0 0x43] ∧
      sf.events.indexOf IsrEvent.seiEv < sf.events.indexOf (IsrEvent.writeUDR0 0x43) := by
  obtain ⟨sf, h1, h2, _, _⟩ := isrRun_trace 0 cexIsrStart
  have he : sf.events = [IsrEvent.cliEv, IsrEvent.seiEv, IsrEvent.writeUDR0 0x43] := by
    rw [h2]
    rfl
  exact ⟨sf, h1, he, by rw [he]; decide⟩

/-- Claim C4 as amended: the handler masks global interrupts first (cli is
the first observable event), runs its wait loop and loads 0x43 into r17
under the mask, then re-enables interrupts, and only after that writes 0x43
to the serial data register — the trace from any entry state is exactly
[cli, sei, write 0x43], and the handler returns with interrupts enabled. -/
theorem C4_cli_then_sei_then_write (fuel r16 r17 x sreg ucsr0a : Nat)
    (mem : Nat → Nat) (stack : List Nat) (iflag : Bool) :
    ∃ sf, isrRun (fuel + 1) (mkIsrState r16 r17 x mem stack sreg iflag ucsr0a) = some sf ∧
      sf.events = [IsrEvent.cliEv, IsrEvent.seiEv, IsrEvent.writeUDR0 0x43] ∧
      sf.iflag = true := by
  obtain ⟨sf, h1, h2, h3, _⟩ := isrRun_trace fuel (mkIsrState r16 r17 x mem stack sreg iflag ucsr0a)
  refine ⟨sf, h1, ?_, h3⟩
  rw [h2]
  rfl

/-- Claim C5 evaluated at the failing input: enter the handler with
UCSR0A = 0, i.e. UDRE0 (bit 5) clear — the transmit hardware never reports
ready.  The handler nevertheless terminates at once and writes 0x43 to
UDR0, and its trace contains no read of UCSR0A at all: the spin only
stores the address constant 0xA0 through the X pointer, reloads it and
tests bit 5 of that constant. -/
theorem C5_write_despite_not_ready (fuel r16 r17 x sreg : Nat)
    (mem : Nat → Nat) (stack : List Nat) (iflag : Bool) :
    ∃ sf, isrRun (fuel + 1) (mkIsrState r16 r17 x mem stack sreg iflag 0) = some sf ∧
      IsrEvent.writeUDR0 0x43 ∈ sf.events ∧
      sf.events.filter (fun e => e.isReadUCSR0A) = [] ∧
      sf.ucsr0a = 0 ∧
      Nat.testBit sf.ucsr0a 5 = false := by
  obtain ⟨sf, h1, h2, _, h4⟩ := isrRun_trace fuel (mkIsrState r16 r17 x mem stack sreg iflag 0)
  have hu : sf.ucsr0a = 0 := h4
  refine ⟨sf, h1, ?_, ?_, hu, ?_⟩
  · rw [h2]
    exact List.mem_append_right _ (by decide)
  · rw [h2]
    rfl
  · rw [hu]
    decide

/-- Claim C6: an unrecognized byte (anything other than 'r', 'g', 'b') is
not an error: the renderer writes the NONE pattern 0x0e to the port —
exactly one port write — and sends nothing on the serial line (no error
signal to the peer, no other observable effect). -/
theorem C6_unrecognized_silent (b : Nat) (s : RenderState)
    (hr : b ≠ 114) (hg : b ≠ 103) (hb : b ≠ 98) :
    lightLED b = 0x0e ∧
    (loopIter s (some b)).portB = 0x0e ∧
    (loopIter s (some b)).portWrites = s.portWrites ++ [0x0e] ∧
    (loopIter s (some b)).txBytes = s.txBytes := by
  have h : lightLED b = 0x0e := by
    rw [lightLED_eq_spec]
    unfold specColorPattern
    rw [if_neg hr, if_neg hg, if_neg hb]
  refine ⟨h, ?_, ?_, ?_⟩ <;> simp [loopIter, lightLEDRun_eq, writePortB, h]

/-- Witness for C6 at the concrete unrecognized byte 'x' (120). -/
theorem C6_unrecognized_silent_witness :
    lightLED 120 = 0x0e ∧
    (loopIter powerOnRender (some 120)).portB = 0x0e ∧
    (loopIter powerOnRender (some 120)).portWrites = powerOnRender.portWrites ++ [0x0e] ∧
    (loopIter powerOnRender (some 120)).txBytes = powerOnRender.txBytes :=
  C6_unrecognized_silent 120 powerOnRender (by decide) (by decide) (by decide)

/-- Claim C7: rendering is stateless and idempotent — the port value
produced for a byte b is the same from any two states, rendering b twice in
succession writes the same pattern both times, and over a whole run the
i-th port write is determined by the i-th input byte alone (the write trace
is the pointwise map of `lightLED` over the inputs). -/
theorem C7_stateless_idempotent (b : Nat) (s t : RenderState) (inputs : List Nat) :
    (loopIter s (some b)).portB = (loopIter t (some b)).portB ∧
    (runLoop s (inputs ++ [b, b])).portWrites =
      s.portWrites ++ inputs.map lightLED ++ [lightLED b, lightLED b] ∧
    (runLoop s inputs).portWrites = s.portWrites ++ inputs.map lightLED := by
  refine ⟨?_, ?_, runLoop_portWrites inputs s⟩
  · simp [loopIter, lightLEDRun_eq, writePortB]
  · rw [runLoop_portWrites]
    simp

/-- Claim C8: end-to-end over the foreground loop from the post-setup
state: input ['r'] appends exactly the write trace [RED = 0x0d], and input
['g','b','x'] appends exactly [GREEN = 0x0b, BLUE = 0x07, NONE = 0x0e] —
one port write per received byte, in order. -/
theorem C8_end_to_end :
    (runLoop setupState [114]).portWrites = setupState.portWrites ++ [0x0d] ∧
    (runLoop setupState [103, 98, 120]).portWrites =
      setupState.portWrites ++ [0x0b, 0x07, 0x0e] := by
  exact ⟨rfl, rfl⟩

/-- Claim C9: when `setup()` completes (its `ledTest()` self-test ends with
`setLEDSequence(0)`), the output port holds the NONE pattern 0x0e — not
RED, GREEN or BLUE — and `ledTest` ends with port 0x0e from any state. -/
theorem C9_after_setup_none :
    setupState.portB = 0x0e ∧
    ([0x0d, 0x0b, 0x07].contains setupState.portB) = false ∧
    (∀ s : RenderState, (ledTest s).portB = 0x0e) := by
  refine ⟨by decide, by decide, fun s => ?_⟩
  simp [ledTest, setLEDSequenceRun, writePortB, setLEDSequence]

/-- A state whose port has all eight bits set, to exhibit that a pattern
write clears bits 4..7 rather than leaving them unchanged. -/
def fullPortState : RenderState :=
  { receivedByte := 0, portB := 0xff, portWrites := [], txBytes := [] }

/-- Claim C10: every call to `setLEDSequence` replaces the entire 8-bit
PORTB with the pattern byte — independent of the previous port value — and
that byte is below 16, so bits 4..7 of the port are 0 after every call. -/
theorem C10_whole_port_write (s : RenderState) (ledPin : Int) (i : Nat)
    (h4 : 4 ≤ i) (h7 : i ≤ 7) :
    (setLEDSequenceRun s ledPin).portB = setLEDSequence ledPin ∧
    setLEDSequence ledPin / 16 = 0 ∧
    Nat.testBit (setLEDSequenceRun s ledPin).portB i = false := by
  have hlt : setLEDSequence ledPin < 16 := by
    unfold setLEDSequence
    split_ifs <;> decide
  have hmod : setLEDSequence ledPin % 256 = setLEDSequence ledPin :=
    Nat.mod_eq_of_lt (lt_trans hlt (by norm_num))
  have hport : (setLEDSequenceRun s ledPin).portB = setLEDSequence ledPin := by
    simp [setLEDSequenceRun, writePortB, hmod]
  refine ⟨hport, Nat.div_eq_of_lt hlt, ?_⟩
  rw [hport]
  apply Nat.testBit_eq_false_of_lt
  calc setLEDSequence ledPin < 16 := hlt
    _ = 2 ^ 4 := by norm_num
    _ ≤ 2 ^ i := Nat.pow_le_pow_right (by norm_num) h4

/-- Witness for C10: writing the RED pattern over a port whose bits 4..7
were all set leaves bit 4 clear. -/
theorem C10_whole_port_write_witness :
    (setLEDSequenceRun fullPortState 1).portB = setLEDSequence 1 ∧
    setLEDSequence 1 / 16 = 0 ∧
    Nat.testBit (setLEDSequenceRun fullPortState 1).portB 4 = false :=
  C10_whole_port_write fullPortState 1 4 (by decide) (by decide)

end ArduinoColorDetector
